import Mathlib

/-!
Shallow embedding of the mood-classification pipeline in `ml_logic.py`.

Python strings are modelled as Lean `String` (a sequence of Unicode code
points, matching Python's `str`); `str.lower()` as `lowerS` (ASCII case
folding, which covers every character the fixed keyword lists use),
`str.strip()` as `stripS`, and Python's substring test `a in b` as
`substrB a.data b.data`.
-/

/-- Model of Python's `str.lower()` (ASCII case folding). -/
def lowerS (s : String) : String := ⟨s.data.map Char.toLower⟩

/-- Characters stripped by Python's `str.strip()` (ASCII whitespace). -/
def isPySpace (c : Char) : Bool :=
  c = ' ' || c = '\t' || c = '\n' || c = '\r' || c = '\x0b' || c = '\x0c'

/-- Model of Python's `str.strip()`: drop whitespace at both ends. -/
def stripS (s : String) : String :=
  ⟨((s.data.dropWhile isPySpace).reverse.dropWhile isPySpace).reverse⟩

/-- Model of Python's substring test `needle in hay` on strings:
true iff `needle` occurs contiguously in `hay`. -/
def substrB (needle : List Char) : List Char → Bool
  | [] => needle.isEmpty
  | c :: t => needle.isPrefixOf (c :: t) || substrB needle t

/-! ### Risk Detector (`detect_risk`, ml_logic.py lines 66-75) -/
/-- The fixed keyword list of `detect_risk`. -/
def risk_keywords : List String :=
  ["suicide", "kill myself", "hurt myself", "end my life", "hopeless"]

/-- The `for keyword in risk_keywords` loop of `detect_risk`:
returns "high" on the first keyword found in the lowered text, else "low". -/
def detect_risk_loop (lowered : String) : List String → String
  | [] => "low"
  | k :: rest =>
      if substrB k.data lowered.data then "high" else detect_risk_loop lowered rest

/-- `detect_risk(user_text)`: keyword scan over `user_text.lower()`. -/
def detect_risk (user_text : String) : String :=
  detect_risk_loop (lowerS user_text) risk_keywords

/-! ### Mood Classifier (`classify_mood_with_gemini`, ml_logic.py lines 77-106)

The remote Gemini call is the one effect: we model the environment by a
flag `modelAvailable` (whether startup produced a model object, line 15/23)
and the outcome `remote : Except Unit String` of `model.generate_content`
followed by `response.text` (an `Except.error` covers any raised exception:
network, auth, timeout, malformed response). The classifier returns the
category string paired with the number of remote calls it performed. -/
/-- `mood_to_playlist_map` (ml_logic.py lines 48-56), as an insertion-ordered
association list, matching Python dict iteration order. -/
def mood_to_playlist_map : List (String × String) :=
  [("Happy", "https://open.spotify.com/playlist/37i9dQZF1DX1g0fEwBUAmQ"),
   ("Sad", "https://open.spotify.com/playlist/37i9dQZF1DWSqBruwoIXjL"),
   ("Anxious", "https://open.spotify.com/playlist/37i9dQZF1DWUvQoIOFMFUT"),
   ("Angry", "https://open.spotify.com/playlist/37i9dQZF1D Sextonvr0Mihs"),
   ("Fearful", "https://open.spotify.com/playlist/37i9dQZF1DWZrc3MTCkPzn"),
   ("Urgent", "https://open.spotify.com/playlist/37i9dQZF1DWZrc3MTCkPzn"),
   ("Neutral", "https://open.spotify.com/playlist/37i9dQZF1DX8Uebhn9wzrS")]

/-- `mood_buckets = list(mood_to_playlist_map.keys())` (line 84). -/
def mood_buckets : List String := mood_to_playlist_map.map Prod.fst

/-- The `for bucket in mood_buckets` fallback loop (lines 100-103): first
bucket name occurring as a substring of the detected reply, else "Neutral". -/
def bucket_substring_loop (detected : String) : List String → String
  | [] => "Neutral"
  | b :: rest =>
      if substrB b.data detected.data then b else bucket_substring_loop detected rest

/-- `classify_mood_with_gemini(user_text)` returning (category, remote call count). -/
def classify_mood_with_gemini (modelAvailable : Bool)
    (remote : Except Unit String) (user_text : String) : String × Nat :=
  if !modelAvailable then ("Neutral", 0)
  else if stripS user_text = "" then ("Neutral", 0)
  else
    match remote with
    | Except.error _ => ("Neutral", 1)
    | Except.ok replyText =>
        let detected_bucket := stripS replyText
        if mood_buckets.contains detected_bucket then (detected_bucket, 1)
        else (bucket_substring_loop detected_bucket mood_buckets, 1)

/-! ### Response Composer (`get_affirmation_for_text`, ml_logic.py lines 109-142,
and `get_music_recommendation`, lines 144-150)

`full_df` (the merged affirmation corpus, loaded from CSV at startup) is a
parameter: a list of rows with the columns the function reads. `random.choice`
is modelled by an arbitrary index `idx`, reduced modulo the length of the
candidate list. The returned dict is a structure with `Option` fields for
the keys present only in the helpline branch. Each composer also returns the
remote call count, to state non-invocation of the classifier. -/
/-- One row of `full_df` with the columns `get_affirmation_for_text` reads. -/
structure AffRecord where
  mood_bucket : String
  text : String
  safety_flag : String
deriving DecidableEq, Repr

/-- The dict returned by `get_affirmation_for_text`. -/
structure AffirmationResult where
  mood_bucket : String
  risk : Option String
  action : Option String
  affirmation : String
  helpline : Option (String × String)
  safety_flag : String
deriving DecidableEq, Repr

/-- The fixed helpline payload (lines 115-122). -/
def helplineResponse : AffirmationResult :=
  { mood_bucket := "Urgent"
    risk := some "high"
    action := some "show_helpline"
    affirmation := "It sounds like you're going through a lot. Please know that help is available and you are not alone."
    helpline := some ("National Suicide Prevention Lifeline", "988")
    safety_flag := "flag" }

/-- The generic fallback dict (lines 138-142). -/
def genericResponse (mood_bucket : String) : AffirmationResult :=
  { mood_bucket := mood_bucket
    risk := none
    action := none
    affirmation := "Thank you for sharing. Remember to be kind to yourself today."
    helpline := none
    safety_flag := "safe" }

/-- The dict built from the randomly selected affirmation row (lines 132-136). -/
def selectedResponse (mood_bucket : String) (selected : AffRecord) : AffirmationResult :=
  { mood_bucket := mood_bucket
    risk := none
    action := none
    affirmation := stripS selected.text
    helpline := none
    safety_flag := selected.safety_flag }

/-- `get_affirmation_for_text(user_text)` returning (dict, remote call count). -/
def get_affirmation_for_text (full_df : List AffRecord) (idx : Nat)
    (modelAvailable : Bool) (remote : Except Unit String) (user_text : String) :
    AffirmationResult × Nat :=
  let risk_level := detect_risk user_text
  if risk_level = "high" then (helplineResponse, 0)
  else
    let c := classify_mood_with_gemini modelAvailable remote user_text
    let possible_affirmations := full_df.filter (fun r => r.mood_bucket == c.1)
    match possible_affirmations with
    | [] => (genericResponse c.1, c.2)
    | p :: ps =>
        let selected_affirmation := (p :: ps).getD (idx % (p :: ps).length) p
        (selectedResponse c.1 selected_affirmation, c.2)

/-- Model of Python's `dict.get(key, default)` over the association list. -/
def pyDictGet (m : List (String × String)) (key dflt : String) : String :=
  match m.find? (fun p => p.1 == key) with
  | some p => p.2
  | none => dflt

/-- `get_music_recommendation(user_text)` returning ((mood, playlist_url),
remote call count). The default of the `.get` is `mood_to_playlist_map["Neutral"]`. -/
def get_music_recommendation (modelAvailable : Bool)
    (remote : Except Unit String) (user_text : String) :
    (String × String) × Nat :=
  let c := classify_mood_with_gemini modelAvailable remote user_text
  let playlist_url :=
    pyDictGet mood_to_playlist_map c.1 (pyDictGet mood_to_playlist_map "Neutral" "")
  ((c.1, playlist_url), c.2)

/-! ### Trend Aggregator (`get_mood_trends`, ml_logic.py lines 153-174)

A check-in row holds a calendar date (the parse of the ISO `"YYYY-MM-DD"`
string by `pd.to_datetime`) and a mood bucket. The pandas pipeline
`groupby([date, mood_bucket]).size().unstack(fill_value=0)` yields rows
indexed by the sorted distinct dates and columns by the sorted distinct
bucket names, with zero fill; we embed the date as the number
`year*10000 + month*100 + day`, whose numeric order is chronological,
and the grouping as sorted deduplication plus counting. -/
/-- A check-in record: parsed calendar date and mood bucket. -/
structure CheckIn where
  year : Nat
  month : Nat
  day : Nat
  mood_bucket : String
deriving DecidableEq, Repr

/-- Chronological encoding of a check-in's date. -/
def dateCode (c : CheckIn) : Nat := c.year * 10000 + c.month * 100 + c.day

/-- `strftime('%b')` month abbreviation. -/
def monthAbbrev : Nat → String
  | 1 => "Jan" | 2 => "Feb" | 3 => "Mar" | 4 => "Apr"
  | 5 => "May" | 6 => "Jun" | 7 => "Jul" | 8 => "Aug"
  | 9 => "Sep" | 10 => "Oct" | 11 => "Nov" | 12 => "Dec"
  | _ => ""

/-- `strftime('%d')`: the day of month, zero padded to two digits. -/
def pad2 (n : Nat) : String :=
  ⟨[Char.ofNat (48 + n / 10 % 10), Char.ofNat (48 + n % 10)]⟩

/-- `strftime('%b %d')` applied to an encoded date. -/
def formatDate (d : Nat) : String :=
  monthAbbrev (d / 100 % 100) ++ " " ++ pad2 (d % 100)

/-- The distinct dates of the check-ins, in chronological order: the row
index of the `groupby(...).unstack(...)` result. -/
def uniqueDatesSorted (cs : List CheckIn) : List Nat :=
  ((cs.map dateCode).dedup).insertionSort (· ≤ ·)

/-- Code-point lexicographic comparison of strings as character lists:
the order pandas sorts the mood column by. -/
def lexLeChar : List Char → List Char → Bool
  | [], _ => true
  | _ :: _, [] => false
  | a :: as, b :: bs =>
      if a.val < b.val then true
      else if b.val < a.val then false
      else lexLeChar as bs

/-- Insertion of a string into a lexicographically sorted list. -/
def insertSortedStr (x : String) : List String → List String
  | [] => [x]
  | y :: ys => if lexLeChar x.data y.data then x :: y :: ys else y :: insertSortedStr x ys

/-- Lexicographic insertion sort on strings. -/
def sortStrings : List String → List String
  | [] => []
  | x :: xs => insertSortedStr x (sortStrings xs)

/-- The distinct bucket names of the check-ins, in lexicographic order: the
column index of the `groupby(...).unstack(...)` result. -/
def uniqueMoodsSorted (cs : List CheckIn) : List String :=
  sortStrings ((cs.map CheckIn.mood_bucket).dedup)

/-- The cell of the unstacked table: how many check-ins fall on the given
date with the given bucket (0 when none, the `fill_value`). -/
def countFor (cs : List CheckIn) (d : Nat) (m : String) : Nat :=
  (cs.filter (fun c => dateCode c == d && c.mood_bucket == m)).length

/-- `labels = [date.strftime('%b %d') for date in daily_counts.index]`. -/
def trendLabels (cs : List CheckIn) : List String :=
  (uniqueDatesSorted cs).map formatDate

/-- The `datasets` list: one `{label, data}` entry per column, the data
aligned with the date labels. -/
def trendDatasets (cs : List CheckIn) : List (String × List Nat) :=
  (uniqueMoodsSorted cs).map
    (fun m => (m, (uniqueDatesSorted cs).map (fun d => countFor cs d m)))

/-- The hardcoded `fake_check_ins` (lines 155-160). -/
def fake_check_ins : List CheckIn :=
  [⟨2025, 9, 12, "Anxious"⟩, ⟨2025, 9, 13, "Sad"⟩,
   ⟨2025, 9, 14, "Happy"⟩, ⟨2025, 9, 14, "Happy"⟩,
   ⟨2025, 9, 15, "Anxious"⟩, ⟨2025, 9, 16, "Happy"⟩,
   ⟨2025, 9, 17, "Neutral"⟩, ⟨2025, 9, 18, "Anxious"⟩]

/-- The dict returned by `get_mood_trends` (lines 170-174). -/
structure TrendsResult where
  userId : String
  period : String
  trendLabelList : List String
  trendDatasetList : List (String × List Nat)
  averageSentimentScore : ℚ
deriving DecidableEq, Repr

/-- `get_mood_trends(userId, period)`: aggregates the hardcoded check-ins. -/
def get_mood_trends (userId : String) (period : String) : TrendsResult :=
  { userId := userId
    period := period
    trendLabelList := trendLabels fake_check_ins
    trendDatasetList := trendDatasets fake_check_ins
    averageSentimentScore := 0.65 }

/-- The check-ins of the worked trend example: two "Happy" entries on
2025-09-14 and one "Anxious" entry on 2025-09-15. -/
def example_check_ins : List CheckIn :=
  [⟨2025, 9, 14, "Happy"⟩, ⟨2025, 9, 14, "Happy"⟩, ⟨2025, 9, 15, "Anxious"⟩]

/-! ### Theorems -/

theorem substrB_true_iff (n h : List Char) : substrB n h = true ↔ n <:+: h := by
  induction h with
  | nil =>
    simp [substrB, List.isEmpty_iff, List.infix_nil]
  | cons c t ih =>
    simp only [substrB, Bool.or_eq_true, ih, List.isPrefixOf_iff_prefix,
      List.infix_cons_iff]

theorem detect_risk_loop_high_iff (lowered : String) (ks : List String) :
    detect_risk_loop lowered ks = "high" ↔
      ∃ k ∈ ks, k.data <:+: lowered.data := by
  induction ks with
  | nil => simp [detect_risk_loop]
  | cons k rest ih =>
    by_cases hk : substrB k.data lowered.data = true
    · simp [detect_risk_loop, hk, (substrB_true_iff _ _).mp hk]
    · have hk' : ¬ k.data <:+: lowered.data := fun h =>
        hk ((substrB_true_iff _ _).mpr h)
      simp [detect_risk_loop, hk, ih, hk']

theorem detect_risk_loop_low_of_not_high (lowered : String) (ks : List String)
    (h : detect_risk_loop lowered ks ≠ "high") :
    detect_risk_loop lowered ks = "low" := by
  induction ks with
  | nil => simp [detect_risk_loop]
  | cons k rest ih =>
    simp only [detect_risk_loop] at h ⊢
    split at h
    · exact absurd rfl h
    · simp only [*] at *
      exact ih h

theorem detect_risk_high_iff (t : String) :
    detect_risk t = "high" ↔ ∃ k ∈ risk_keywords, k.data <:+: (lowerS t).data :=
  detect_risk_loop_high_iff (lowerS t) risk_keywords

theorem detect_risk_high_or_low (t : String) :
    detect_risk t = "high" ∨ detect_risk t = "low" := by
  by_cases h : detect_risk t = "high"
  · exact Or.inl h
  · exact Or.inr (detect_risk_loop_low_of_not_high _ _ h)

/-! ### Helper lemmas -/
theorem substrB_eq_decide (n h : List Char) : substrB n h = decide (n <:+: h) := by
  by_cases hx : n <:+: h
  · simp [hx, (substrB_true_iff n h).mpr hx]
  · have hb : substrB n h ≠ true := fun hc => hx ((substrB_true_iff n h).mp hc)
    simp [hx, Bool.not_eq_true] at hb ⊢
    exact hb

theorem stripS_of_all_space (t : String) (h : t.data.all isPySpace = true) :
    stripS t = "" := by
  have h1 : t.data.dropWhile isPySpace = [] := by
    rw [List.dropWhile_eq_nil_iff]
    intro x hx
    exact List.all_eq_true.mp h x hx
  simp [stripS, h1]

/-! ### Claim theorems -/
/-- C2: `detect_risk` returns "high" iff some phrase of the fixed keyword
list is a substring of the lowercased input, and returns "low" otherwise;
it is a total function of its input (no side effects, no failure modes). -/
theorem detect_risk_spec (t : String) :
    (detect_risk t = "high" ↔ ∃ k ∈ risk_keywords, k.data <:+: (lowerS t).data)
    ∧ (detect_risk t = "high" ∨ detect_risk t = "low") :=
  ⟨detect_risk_high_iff t, detect_risk_high_or_low t⟩

/-- C2 witness: "I feel hopeless" contains the keyword "hopeless", so the
risk level is "high"; "I am happy" contains none, so it is "low". -/
theorem detect_risk_spec_witness :
    detect_risk "I feel hopeless" = "high" ∧ detect_risk "I am happy" = "low" := by
  constructor
  · exact (detect_risk_spec "I feel hopeless").1.mpr (by decide)
  · rcases (detect_risk_spec "I am happy").2 with h | h
    · exact absurd ((detect_risk_spec "I am happy").1.mp h) (by decide)
    · exact h

/-- C1: on any input whose lowercasing contains a risk keyword as a
substring, `get_affirmation_for_text` returns the fixed helpline payload
(mood_bucket "Urgent", safety_flag "flag", action "show_helpline") and
performs zero remote classifier calls, for every corpus, random choice
and remote environment. -/
theorem risk_override_helpline (full_df : List AffRecord) (idx : Nat)
    (modelAvailable : Bool) (remote : Except Unit String) (t : String)
    (h : ∃ k ∈ risk_keywords, k.data <:+: (lowerS t).data) :
    get_affirmation_for_text full_df idx modelAvailable remote t = (helplineResponse, 0)
    ∧ helplineResponse.mood_bucket = "Urgent"
    ∧ helplineResponse.safety_flag = "flag"
    ∧ helplineResponse.action = some "show_helpline" := by
  have hh : detect_risk t = "high" := (detect_risk_high_iff t).mpr h
  refine ⟨?_, rfl, rfl, rfl⟩
  simp [get_affirmation_for_text, hh]

/-- C1 witness: the helpline payload at the concrete input
"I want to KILL myself", with an arbitrary corpus and remote reply. -/
theorem risk_override_helpline_witness :
    get_affirmation_for_text [⟨"Happy", "smile", "safe"⟩] 0 true
      (Except.ok "Happy") "I want to KILL myself" = (helplineResponse, 0) :=
  (risk_override_helpline [⟨"Happy", "smile", "safe"⟩] 0 true
    (Except.ok "Happy") "I want to KILL myself" (by decide)).1

/-- C4: when the model was never configured, or the remote call fails with
any exception, `classify_mood_with_gemini` returns "Neutral"; being a total
function it propagates no error to its caller. -/
theorem classifier_failsafe_neutral (remote : Except Unit String) (e : Unit) (t : String) :
    (classify_mood_with_gemini false remote t).1 = "Neutral"
    ∧ (classify_mood_with_gemini true (Except.error e) t).1 = "Neutral" := by
  constructor
  · simp [classify_mood_with_gemini]
  · by_cases h : stripS t = "" <;> simp [classify_mood_with_gemini, h]

/-- C5: on empty or whitespace-only input the classifier returns "Neutral"
with zero remote calls, whatever the environment. -/
theorem whitespace_only_neutral_no_call (modelAvailable : Bool)
    (remote : Except Unit String) (t : String)
    (h : t.data.all isPySpace = true) :
    classify_mood_with_gemini modelAvailable remote t = ("Neutral", 0) := by
  have hs : stripS t = "" := stripS_of_all_space t h
  cases modelAvailable <;> simp [classify_mood_with_gemini, hs]

/-- C5 witness: the whitespace-only input " \t " yields ("Neutral", 0)
even with the model available and a remote environment readily answering
"Happy". -/
theorem whitespace_only_neutral_no_call_witness :
    classify_mood_with_gemini true (Except.ok "Happy") " \t " = ("Neutral", 0) :=
  whitespace_only_neutral_no_call true (Except.ok "Happy") " \t " (by decide)

theorem bucket_substring_loop_eq_find (detected : String) (bs : List String) :
    bucket_substring_loop detected bs =
      (bs.find? (fun b => decide (b.data <:+: detected.data))).getD "Neutral" := by
  induction bs with
  | nil => rfl
  | cons b rest ih =>
    by_cases hb : b.data <:+: detected.data
    · have hsb : substrB b.data detected.data = true := (substrB_true_iff _ _).mpr hb
      simp [bucket_substring_loop, hsb, List.find?_cons, hb]
    · have hsb : ¬ substrB b.data detected.data = true := fun hc =>
        hb ((substrB_true_iff _ _).mp hc)
      simp [bucket_substring_loop, hsb, List.find?_cons, hb, ih]

/-- C3: parsing of the remote reply. With the model available and the input
not whitespace-only: the trimmed reply is returned when it exactly equals a
category name; otherwise the first category name, in the fixed list order,
occurring as a substring of the trimmed reply is returned, defaulting to
"Neutral". In particular "Angry" yields Angry, "I think this is Angry
actually" yields Angry via the substring fallback, and "Blorp" yields
Neutral. -/
theorem classifier_reply_parsing (replyText user_text : String)
    (h : stripS user_text ≠ "") :
    (stripS replyText ∈ mood_buckets →
      (classify_mood_with_gemini true (Except.ok replyText) user_text).1 = stripS replyText)
    ∧ (stripS replyText ∉ mood_buckets →
      (classify_mood_with_gemini true (Except.ok replyText) user_text).1 =
        (mood_buckets.find? (fun b => decide (b.data <:+: (stripS replyText).data))).getD
          "Neutral")
    ∧ (classify_mood_with_gemini true (Except.ok "Angry") user_text).1 = "Angry"
    ∧ (classify_mood_with_gemini true (Except.ok "I think this is Angry actually") user_text).1
        = "Angry"
    ∧ (classify_mood_with_gemini true (Except.ok "Blorp") user_text).1 = "Neutral" := by
  refine ⟨?_, ?_, ?_, ?_, ?_⟩
  · intro hm
    simp [classify_mood_with_gemini, h, List.elem_iff, hm]
  · intro hm
    rw [show (classify_mood_with_gemini true (Except.ok replyText) user_text).1
        = bucket_substring_loop (stripS replyText) mood_buckets by
      simp [classify_mood_with_gemini, h, List.elem_iff, hm]]
    exact bucket_substring_loop_eq_find _ _
  · simp [classify_mood_with_gemini, h]
    decide
  · simp [classify_mood_with_gemini, h]
    decide
  · simp [classify_mood_with_gemini, h]
    decide

/-- C3 witness: the three concrete replies at the concrete input "hello". -/
theorem classifier_reply_parsing_witness :
    (classify_mood_with_gemini true (Except.ok "Angry") "hello").1 = "Angry"
    ∧ (classify_mood_with_gemini true (Except.ok "I think this is Angry actually") "hello").1
        = "Angry"
    ∧ (classify_mood_with_gemini true (Except.ok "Blorp") "hello").1 = "Neutral" :=
  ⟨(classifier_reply_parsing "Angry" "hello" (by decide)).2.2.1,
   (classifier_reply_parsing "Angry" "hello" (by decide)).2.2.2.1,
   (classifier_reply_parsing "Angry" "hello" (by decide)).2.2.2.2⟩

theorem bucket_substring_loop_mem_or (detected : String) (bs : List String) :
    bucket_substring_loop detected bs = "Neutral"
    ∨ bucket_substring_loop detected bs ∈ bs := by
  induction bs with
  | nil => exact Or.inl rfl
  | cons b rest ih =>
    by_cases hb : substrB b.data detected.data = true
    · right
      simp [bucket_substring_loop, hb]
    · rcases ih with h | h
      · left
        simpa [bucket_substring_loop, hb] using h
      · right
        simp [bucket_substring_loop, hb]
        exact Or.inr h

theorem classify_mem_mood_buckets (modelAvailable : Bool)
    (remote : Except Unit String) (t : String) :
    (classify_mood_with_gemini modelAvailable remote t).1 ∈ mood_buckets := by
  have hne : "Neutral" ∈ mood_buckets := by decide
  cases modelAvailable with
  | false => simpa [classify_mood_with_gemini] using hne
  | true =>
    by_cases hs : stripS t = ""
    · simpa [classify_mood_with_gemini, hs] using hne
    · cases remote with
      | error e => simpa [classify_mood_with_gemini, hs] using hne
      | ok replyText =>
        by_cases hm : stripS replyText ∈ mood_buckets
        · simp [classify_mood_with_gemini, hs, List.elem_iff, hm]
        · rcases bucket_substring_loop_mem_or (stripS replyText) mood_buckets with h | h
          · simp [classify_mood_with_gemini, hs, List.elem_iff, hm, h, hne]
          · simp [classify_mood_with_gemini, hs, List.elem_iff, hm, h]

theorem pyDictGet_not_mem (k dflt : String) (hk : k ∉ mood_buckets) :
    pyDictGet mood_to_playlist_map k dflt = dflt := by
  have hfind : mood_to_playlist_map.find? (fun p => p.1 == k) = none := by
    rw [List.find?_eq_none]
    intro p hp hbeq
    exact hk (by
      rw [← beq_iff_eq.mp hbeq]
      exact List.mem_map_of_mem Prod.fst hp)
  simp [pyDictGet, hfind]

/-- C6: the classifier always outputs one of the seven categories; for each
of the seven, the playlist lookup of `get_music_recommendation` yields a
non-empty URL; and for a key absent from the map the lookup defaults to the
Neutral entry. -/
theorem playlist_map_total (modelAvailable : Bool)
    (remote : Except Unit String) (t : String) :
    ((get_music_recommendation modelAvailable remote t).1.1 ∈ mood_buckets)
    ∧ ((get_music_recommendation modelAvailable remote t).1.2 ≠ "")
    ∧ (∀ b ∈ mood_buckets,
        pyDictGet mood_to_playlist_map b
          (pyDictGet mood_to_playlist_map "Neutral" "") ≠ "")
    ∧ (∀ k, k ∉ mood_buckets →
        pyDictGet mood_to_playlist_map k
            (pyDictGet mood_to_playlist_map "Neutral" "")
          = pyDictGet mood_to_playlist_map "Neutral" "") := by
  have hmem := classify_mem_mood_buckets modelAvailable remote t
  have hall : ∀ b ∈ mood_buckets,
      pyDictGet mood_to_playlist_map b
        (pyDictGet mood_to_playlist_map "Neutral" "") ≠ "" := by decide
  refine ⟨hmem, ?_, hall, fun k hk => pyDictGet_not_mem k _ hk⟩
  exact hall _ hmem

/-- C6 witness: a category the map does hold ("Happy") gets its own entry,
and an absent key ("Blorp") gets the Neutral entry. -/
theorem playlist_map_total_witness :
    (get_music_recommendation true (Except.ok "Happy") "hello").1.2 ≠ ""
    ∧ pyDictGet mood_to_playlist_map "Blorp"
          (pyDictGet mood_to_playlist_map "Neutral" "")
        = pyDictGet mood_to_playlist_map "Neutral" "" :=
  ⟨(playlist_map_total true (Except.ok "Happy") "hello").2.1,
   (playlist_map_total true (Except.ok "Happy") "hello").2.2.2 "Blorp" (by decide)⟩

theorem getD_mem_of_lt {α : Type} (l : List α) (n : Nat) (d : α)
    (h : n < l.length) : l.getD n d ∈ l := by
  rw [List.getD_eq_getElem?_getD, List.getElem?_eq_getElem h, Option.getD_some]
  exact List.getElem_mem h

/-- C7: in the low-risk path, when the affirmation candidate list is
non-empty, the selected row's safety flag is returned verbatim — even when
it is "flag" — and the result carries no helpline action: only the keyword
risk check produces the helpline payload. -/
theorem selected_flag_surfaced (full_df : List AffRecord) (idx : Nat)
    (modelAvailable : Bool) (remote : Except Unit String) (t : String)
    (p : AffRecord) (ps : List AffRecord)
    (hrisk : detect_risk t = "low")
    (hposs : full_df.filter
        (fun r => r.mood_bucket == (classify_mood_with_gemini modelAvailable remote t).1)
      = p :: ps)
    (hflag : ((p :: ps).getD (idx % (p :: ps).length) p).safety_flag = "flag") :
    ((get_affirmation_for_text full_df idx modelAvailable remote t).1.safety_flag = "flag")
    ∧ ((get_affirmation_for_text full_df idx modelAvailable remote t).1.action = none)
    ∧ ((get_affirmation_for_text full_df idx modelAvailable remote t).1.helpline = none)
    ∧ ((get_affirmation_for_text full_df idx modelAvailable remote t).1 ≠ helplineResponse)
    := by
  have hne : ¬ detect_risk t = "high" := by rw [hrisk]; decide
  have hres : (get_affirmation_for_text full_df idx modelAvailable remote t).1
      = selectedResponse (classify_mood_with_gemini modelAvailable remote t).1
          ((p :: ps).getD (idx % (p :: ps).length) p) := by
    simp [get_affirmation_for_text, hne, hposs]
  rw [hres]
  refine ⟨hflag, rfl, rfl, ?_⟩
  simp [selectedResponse, helplineResponse]

/-- C7 witness: with a one-row corpus whose row is flagged, a low-risk
input returns that flag as-is, with no helpline action. -/
theorem selected_flag_surfaced_witness :
    ((get_affirmation_for_text [⟨"Neutral", "be well", "flag"⟩] 0 false
        (Except.ok "") "hello").1.safety_flag = "flag")
    ∧ ((get_affirmation_for_text [⟨"Neutral", "be well", "flag"⟩] 0 false
        (Except.ok "") "hello").1.action = none) :=
  ⟨(selected_flag_surfaced [⟨"Neutral", "be well", "flag"⟩] 0 false (Except.ok "")
      "hello" ⟨"Neutral", "be well", "flag"⟩ [] (by decide) (by decide) (by decide)).1,
   (selected_flag_surfaced [⟨"Neutral", "be well", "flag"⟩] 0 false (Except.ok "")
      "hello" ⟨"Neutral", "be well", "flag"⟩ [] (by decide) (by decide) (by decide)).2.1⟩

/-- C8: `get_affirmation_for_text` is a total function of its inputs: the
result is always one of the three well-formed payloads (helpline, a
corpus-selected affirmation with its stripped text, or the generic
fallback) — it never fails. -/
theorem compose_affirmation_total (full_df : List AffRecord) (idx : Nat)
    (modelAvailable : Bool) (remote : Except Unit String) (t : String) :
    (get_affirmation_for_text full_df idx modelAvailable remote t).1 = helplineResponse
    ∨ (∃ a ∈ full_df,
        (get_affirmation_for_text full_df idx modelAvailable remote t).1 =
          selectedResponse (classify_mood_with_gemini modelAvailable remote t).1 a)
    ∨ (get_affirmation_for_text full_df idx modelAvailable remote t).1 =
        genericResponse (classify_mood_with_gemini modelAvailable remote t).1 := by
  by_cases hr : detect_risk t = "high"
  · left
    simp [get_affirmation_for_text, hr]
  · cases hf : full_df.filter
        (fun r => r.mood_bucket == (classify_mood_with_gemini modelAvailable remote t).1)
      with
    | nil =>
      right; right
      simp [get_affirmation_for_text, hr, hf]
    | cons p ps =>
      right; left
      refine ⟨(p :: ps).getD (idx % (p :: ps).length) p, ?_, ?_⟩
      · have hmem : (p :: ps).getD (idx % (p :: ps).length) p ∈ p :: ps :=
          getD_mem_of_lt _ _ _ (Nat.mod_lt _ (by simp))
        exact List.mem_of_mem_filter (by rw [hf]; exact hmem)
      · simp [get_affirmation_for_text, hr, hf]

theorem uniqueDatesSorted_sorted_lt (cs : List CheckIn) :
    (uniqueDatesSorted cs).Sorted (· < ·) := by
  have hs : (uniqueDatesSorted cs).Sorted (· ≤ ·) :=
    List.sorted_insertionSort _ _
  have hn : (uniqueDatesSorted cs).Nodup :=
    (List.perm_insertionSort _ _).nodup_iff.mpr (List.nodup_dedup _)
  exact hs.lt_of_le hn

theorem mem_insertSortedStr (x y : String) (l : List String) :
    y ∈ insertSortedStr x l ↔ y = x ∨ y ∈ l := by
  induction l with
  | nil => simp [insertSortedStr]
  | cons z zs ih =>
    by_cases hc : lexLeChar x.data z.data = true
    · simp [insertSortedStr, hc]
    · simp [insertSortedStr, hc, ih]
      tauto

theorem mem_sortStrings (y : String) (l : List String) :
    y ∈ sortStrings l ↔ y ∈ l := by
  induction l with
  | nil => simp [sortStrings]
  | cons z zs ih =>
    simp [sortStrings, mem_insertSortedStr, ih]

theorem mem_uniqueMoodsSorted (cs : List CheckIn) (m : String)
    (h : m ∈ cs.map CheckIn.mood_bucket) : m ∈ uniqueMoodsSorted cs :=
  (mem_sortStrings m _).mpr (List.mem_dedup.mpr h)

theorem countFor_eq_zero (cs : List CheckIn) (d : Nat) (m : String)
    (h : ∀ c ∈ cs, ¬(dateCode c = d ∧ c.mood_bucket = m)) :
    countFor cs d m = 0 := by
  have hb : ∀ c ∈ cs, ¬((dateCode c == d && c.mood_bucket == m) = true) := by
    intro c hc hx
    simp only [Bool.and_eq_true, beq_iff_eq] at hx
    exact h c hc hx
  simp [countFor, List.filter_eq_nil_iff.mpr hb]

/-- C9: the trend aggregation produces the distinct dates in strictly
chronological order, formats each as a "%b %d" label, and carries, for each
mood category occurring in the input, a series aligned to the date labels
whose entry at each date is the occurrence count of that category on that
date (zero when the category does not occur that day). On the worked
example — two "Happy" check-ins on 2025-09-14 and one "Anxious" on
2025-09-15 — the labels are ["Sep 14", "Sep 15"], the "Happy" series is
[2, 0], and the "Anxious" series is [0, 1]. -/
theorem trend_aggregation_spec (cs : List CheckIn) :
    (uniqueDatesSorted cs).Sorted (· < ·)
    ∧ trendLabels cs = (uniqueDatesSorted cs).map formatDate
    ∧ (∀ m ∈ cs.map CheckIn.mood_bucket,
        (m, (uniqueDatesSorted cs).map (fun d => countFor cs d m)) ∈ trendDatasets cs)
    ∧ (∀ m d, (∀ c ∈ cs, ¬(dateCode c = d ∧ c.mood_bucket = m)) →
        countFor cs d m = 0)
    ∧ trendLabels example_check_ins = ["Sep 14", "Sep 15"]
    ∧ ("Happy", [2, 0]) ∈ trendDatasets example_check_ins
    ∧ ("Anxious", [0, 1]) ∈ trendDatasets example_check_ins := by
  have hd : trendDatasets example_check_ins = [("Anxious", [0, 1]), ("Happy", [2, 0])] := by
    rfl
  refine ⟨uniqueDatesSorted_sorted_lt cs, rfl, ?_, fun m d => countFor_eq_zero cs d m,
    ?_, ?_, ?_⟩
  · intro m hm
    exact List.mem_map_of_mem _ (mem_uniqueMoodsSorted cs m hm)
  · decide
  · rw [hd]
    exact List.mem_cons_of_mem _ (List.mem_cons_self _ _)
  · rw [hd]
    exact List.mem_cons_self _ _

/-- C9 witness: the worked example, instantiated concretely: labeled days
["Sep 14", "Sep 15"] with "Happy" series [2, 0] and "Anxious" series
[0, 1], the "Happy" series being the aligned per-day counts. -/
theorem trend_aggregation_spec_witness :
    trendLabels example_check_ins = ["Sep 14", "Sep 15"]
    ∧ ("Happy", (uniqueDatesSorted example_check_ins).map
          (fun d => countFor example_check_ins d "Happy")) ∈ trendDatasets example_check_ins
    ∧ ("Anxious", [0, 1]) ∈ trendDatasets example_check_ins :=
  ⟨(trend_aggregation_spec example_check_ins).2.2.2.2.1,
   (trend_aggregation_spec example_check_ins).2.2.1 "Happy" (by decide),
   (trend_aggregation_spec example_check_ins).2.2.2.2.2.2⟩

/-- C10: `get_mood_trends` ignores its arguments except to echo them: the
trend data and the 0.65 sentiment score are identical across any two calls,
because the aggregated check-in sequence is the fixed hardcoded one. -/
theorem trends_independent_of_arguments (u1 p1 u2 p2 : String) :
    (get_mood_trends u1 p1).trendLabelList = (get_mood_trends u2 p2).trendLabelList
    ∧ (get_mood_trends u1 p1).trendDatasetList = (get_mood_trends u2 p2).trendDatasetList
    ∧ (get_mood_trends u1 p1).averageSentimentScore
        = (get_mood_trends u2 p2).averageSentimentScore
    ∧ (get_mood_trends u1 p1).averageSentimentScore = 0.65
    ∧ (get_mood_trends u1 p1).userId = u1
    ∧ (get_mood_trends u1 p1).period = p1 :=
  ⟨rfl, rfl, rfl, rfl, rfl, rfl⟩
